import Mathlib

/-!
Verification development for the Formbricks server-action layer:
the authorization evaluator, the Plain-integration connect action,
contact CSV import, personal-link generation, the bulk survey-copy
toast reporting, and default-team-membership creation.

Definitions marked "Modelled from the spec" embed code of the
repository whose implementation file is not part of the sample
(only its tests and call sites are); they follow the specification's
wording for that component.
-/

namespace Formbricks

/-! ## Roles, permissions and the authorization evaluator -/

/-- Organization roles {owner, manager, member}. -/
inductive OrganizationRole
  | owner
  | manager
  | member
deriving DecidableEq, Repr

/-- Project/team permission levels, ordered read < readWrite < admin. -/
inductive Permission
  | read
  | readWrite
  | admin
deriving DecidableEq, Repr

/-- Numeric rank of a permission level (read < readWrite < admin). -/
def Permission.rank : Permission → Nat
  | .read => 0
  | .readWrite => 1
  | .admin => 2

/-- "meets" means actual ≥ required in the permission order. -/
def Permission.meets (actual required : Permission) : Bool :=
  required.rank ≤ actual.rank

/-- One declarative access rule of an authorization request. -/
inductive AccessRule
  | organization (roles : List OrganizationRole)
  | projectTeam (minPermission : Permission) (projectId : String)
  | team (teamId : String) (minPermission : Permission)
deriving DecidableEq, Repr

/-- The user's resolved role/permission in each scope. -/
structure UserAccess where
  organizationRole : Option OrganizationRole
  projectPermission : String → Option Permission
  teamPermission : String → Option Permission

/-- The error taxonomy of the action layer. -/
inductive ActionError
  | authorizationError
  | validationError (message : String)
  | databaseError (message : String)
  | unknownError (message : String)
deriving DecidableEq, Repr

/-- Whether a single access rule is satisfied by the user's resolved
role/permission in that rule's scope. -/
def ruleSatisfied (u : UserAccess) : AccessRule → Bool
  | .organization roles =>
      match u.organizationRole with
      | some r => roles.contains r
      | none => false
  | .projectTeam minPermission projectId =>
      match u.projectPermission projectId with
      | some p => p.meets minPermission
      | none => false
  | .team teamId minPermission =>
      match u.teamPermission teamId with
      | some p => p.meets minPermission
      | none => false

/-- Modelled from the spec: `checkAuthorizationUpdated` (the authorization
evaluator of `@/lib/utils/action-client-middleware`, whose implementation
file is not part of the sample). Given the user's resolved roles and a
declarative list of access rules, it succeeds if any rule's threshold is
met and otherwise fails with an Authorization error. -/
def checkAuthorizationUpdated (u : UserAccess) (access : List AccessRule) :
    Except ActionError Unit :=
  if access.any (ruleSatisfied u) then .ok () else .error .authorizationError

/-- The access-rule list used by `connectPlainIntegrationAction`:
organization owner/manager OR project readWrite. -/
def plainIntegrationAccess (projectId : String) : List AccessRule :=
  [.organization [.owner, .manager], .projectTeam .readWrite projectId]

/-! ## Integration connect (Plain) -/

/-- Integration types appearing in the sampled code. -/
inductive IntegrationType
  | plain
  | slack
deriving DecidableEq, Repr

/-- The stored integration configuration: the (encrypted) credential and
the provider-specific data payload. -/
structure IntegrationConfig where
  key : String
  data : List String
deriving DecidableEq, Repr

/-- One integration row of an environment. -/
structure Integration where
  type : IntegrationType
  config : IntegrationConfig
deriving DecidableEq, Repr

/-- The integration rows of one environment, one per type. -/
def IntegrationStore := IntegrationType → Option Integration

/-- `getIntegrationByType`: the row of the given type, if any. -/
def getIntegrationByType (σ : IntegrationStore) (t : IntegrationType) :
    Option Integration :=
  σ t

/-- `createOrUpdateIntegration`: upsert of the single row per
(environment, type). -/
def createOrUpdateIntegration (i : Integration) (σ : IntegrationStore) :
    IntegrationStore :=
  fun t => if t = i.type then some i else σ t

/-- Shallow embedding of `connectPlainIntegrationAction`
(apps/web/app/(app)/environments/[environmentId]/integrations/plain/actions.ts):
authorization check, then symmetric encryption of the credential, then a
read of the existing row to preserve its data payload, then the upsert.
`symmetricEncrypt` and the server-held `encryptionKey` are parameters
(the crypto module is not part of the sample). The returned store is the
environment's integration state after the action. -/
def connectPlainIntegrationAction (u : UserAccess) (projectId : String)
    (key : String) (symmetricEncrypt : String → String → String)
    (encryptionKey : String) (σ : IntegrationStore) :
    Except ActionError Integration × IntegrationStore :=
  match checkAuthorizationUpdated u (plainIntegrationAccess projectId) with
  | .error e => (.error e, σ)
  | .ok _ =>
    let encryptedAccessToken := symmetricEncrypt key encryptionKey
    let existingIntegration := getIntegrationByType σ .plain
    let plainData :=
      match existingIntegration with
      | some i => if i.type = .plain then i.config.data else []
      | none => []
    let integration : Integration :=
      { type := .plain, config := { key := encryptedAccessToken, data := plainData } }
    (.ok integration, createOrUpdateIntegration integration σ)

/-! ## Contact CSV import -/

/-- One CSV row: an ordered sequence of (column name, value) pairs. -/
abbrev CsvRow := List (String × String)

/-- A contact as seen by the import: id plus attribute (key, value) pairs. -/
structure CsvContact where
  id : String
  attributes : List (String × String)
deriving DecidableEq, Repr

/-- The environment's persistent state relevant to the import: existing
contacts and the attribute keys already known to the environment. -/
structure ContactStore where
  contacts : List CsvContact
  attributeKeys : List String
deriving DecidableEq, Repr

/-- The duplicate policy of the import. -/
inductive DuplicateAction
  | skip
  | update
  | overwrite
deriving DecidableEq, Repr

/-- A mutating storage call issued by the import, in order. -/
inductive WriteEffect
  | createAttributeKeys (keys : List String)
  | createContact (attributes : List (String × String))
  | updateContact (contactId : String) (attributes : List (String × String))
  | deleteContactAttributes (contactId : String) (keys : List String)
deriving DecidableEq, Repr

/-- JavaScript-style `trim`: strip leading and trailing whitespace. -/
def trimString (s : String) : String :=
  String.mk (((s.data.dropWhile Char.isWhitespace).reverse.dropWhile Char.isWhitespace).reverse)

/-- The attribute key a CSV column populates: the caller-supplied
column→key mapping, defaulting to the column name itself. -/
def mappedKey (attributeMap : List (String × String)) (column : String) : String :=
  (attributeMap.lookup column).getD column

/-- The row's identifying attribute (email) value, "" when absent. -/
def rowEmail (row : CsvRow) : String :=
  (row.lookup "email").getD ""

/-- A row is valid when it carries a non-empty identifying email. -/
def rowEmailValid (row : CsvRow) : Bool :=
  match row.lookup "email" with
  | some v => v != ""
  | none => false

/-- The attributes persisted for a row: empty or whitespace-only values
are silently dropped; columns are renamed through the attribute map. -/
def rowAttributes (attributeMap : List (String × String)) (row : CsvRow) :
    List (String × String) :=
  (row.filter fun p => trimString p.2 != "").map fun p => (mappedKey attributeMap p.1, p.2)

/-- All attribute keys used by the CSV input, deduplicated. -/
def csvKeys (attributeMap : List (String × String)) (csv : List CsvRow) : List String :=
  (csv.flatMap fun row => row.map fun p => mappedKey attributeMap p.1).dedup

/-- The keys not already known to the environment, to be auto-created. -/
def missingKeys (attributeMap : List (String × String)) (csv : List CsvRow)
    (store : ContactStore) : List String :=
  (csvKeys attributeMap csv).filter fun k => !(store.attributeKeys.contains k)

/-- The existing contact matching the identifying email, if any. -/
def findExistingContact (store : ContactStore) (email : String) : Option CsvContact :=
  store.contacts.find? fun c => c.attributes.lookup "email" == some email

/-- Under `update`, only previously empty or missing attributes of the
matched contact are filled from the CSV row. -/
def mergeFillEmpty (existing incoming : List (String × String)) :
    List (String × String) :=
  (existing.map fun p =>
    if p.2 = "" then
      match incoming.lookup p.1 with
      | some v => (p.1, v)
      | none => p
    else p)
    ++ incoming.filter fun q => (existing.lookup q.1).isNone

/-- Under `overwrite`, attributes for columns present in the CSV are
fully replaced; other existing attributes are kept. -/
def overwriteAttrs (existing incoming : List (String × String)) :
    List (String × String) :=
  incoming ++ existing.filter fun p => (incoming.lookup p.1).isNone

/-- Processing of one validated row: the produced result record (none
when the row is skipped) and the write calls it issues. -/
def processRow (store : ContactStore) (action : DuplicateAction)
    (attributeMap : List (String × String)) (row : CsvRow) :
    Option CsvContact × List WriteEffect :=
  let attrs := rowAttributes attributeMap row
  match findExistingContact store (rowEmail row) with
  | some existing =>
    match action with
    | .skip => (none, [])
    | .update =>
        (some { id := existing.id, attributes := mergeFillEmpty existing.attributes attrs },
         [.updateContact existing.id attrs])
    | .overwrite =>
        (some { id := existing.id, attributes := overwriteAttrs existing.attributes attrs },
         [.deleteContactAttributes existing.id (attrs.map Prod.fst),
          .updateContact existing.id attrs])
  | none =>
      (some { id := "created", attributes := attrs }, [.createContact attrs])

/-- The attribute-key auto-creation call, when any key is missing. -/
def keyWriteEffects (attributeMap : List (String × String)) (csv : List CsvRow)
    (store : ContactStore) : List WriteEffect :=
  let missing := missingKeys attributeMap csv store
  if missing.isEmpty then [] else [.createAttributeKeys missing]

/-- The import passes validation: every row carries a non-empty email and
every key to be auto-created is non-blank and at most 255 characters
after trimming. -/
def csvImportValid (attributeMap : List (String × String)) (csv : List CsvRow)
    (store : ContactStore) : Bool :=
  csv.all rowEmailValid
    && !((missingKeys attributeMap csv store).any fun k => trimString k == "")
    && !((missingKeys attributeMap csv store).any fun k =>
          decide (255 < (trimString k).length))

/-- Modelled from the spec: `createContactsFromCSV`
(modules/ee/contacts/lib/contacts.ts, whose implementation file is not
part of the sample; its unit tests are). Validation failures abort the
whole import with a ValidationError and no write; otherwise missing
attribute keys are auto-created and rows are merged under the duplicate
policy. Returns the outcome together with the ordered write calls. -/
def createContactsFromCSV (csv : List CsvRow) (action : DuplicateAction)
    (attributeMap : List (String × String)) (store : ContactStore) :
    Except ActionError (List CsvContact) × List WriteEffect :=
  if !(csv.all rowEmailValid) then
    (.error (.validationError "Missing or empty email value in CSV row"), [])
  else if (missingKeys attributeMap csv store).any (fun k => trimString k == "") then
    (.error (.validationError
      "Invalid attribute keys: empty or whitespace-only keys are not allowed"), [])
  else if (missingKeys attributeMap csv store).any
      (fun k => decide (255 < (trimString k).length)) then
    (.error (.validationError
      "Invalid attribute keys: keys must be 255 characters or less"), [])
  else
    let processed := csv.map (processRow store action attributeMap)
    (.ok (processed.filterMap Prod.fst),
     keyWriteEffects attributeMap csv store ++ processed.flatMap Prod.snd)

/-! ## Segment resolution and personal-link generation -/

/-- A contact returned by segment resolution. -/
structure ContactRecord where
  id : String
  attributes : List (String × String)
deriving DecidableEq, Repr

/-- The outcomes of the three lookup steps behind `getContactsInSegment`:
the segment fetch (throws on failure), the filter-to-query translation
(ok/error result), and the storage query for matching contacts. -/
structure SegmentEnv where
  getSegmentResult : Except String Unit
  filterToQueryResult : Except String Unit
  contactsResult : Except String (List ContactRecord)

/-- Modelled from the spec: `getContactsInSegment` (implementation file
not part of the sample; its unit tests are). Errors during segment
lookup, filter translation or the storage query are logged and
swallowed, yielding `none`; success yields the matching contacts. -/
def getContactsInSegment (env : SegmentEnv) : Option (List ContactRecord) :=
  match env.getSegmentResult with
  | .error _ => none
  | .ok _ =>
    match env.filterToQueryResult with
    | .error _ => none
    | .ok _ =>
      match env.contactsResult with
      | .error _ => none
      | .ok contacts => some contacts

/-- One generated personal link record. -/
structure PersonalLink where
  contactId : String
  attributes : List (String × String)
  surveyUrl : String
  expirationDays : Option Nat
deriving DecidableEq, Repr

/-- Modelled from the spec: `generatePersonalLinks` (implementation file
not part of the sample; its unit tests are). Returns `none` when segment
resolution fails, otherwise one record per matching contact pairing its
attributes with the minted survey link and the expiration window used.
`getContactSurveyLink` (token minting, not part of the sample) is a
parameter from contact id to survey URL. -/
def generatePersonalLinks (env : SegmentEnv)
    (getContactSurveyLink : String → String) (expirationDays : Option Nat) :
    Option (List PersonalLink) :=
  match getContactsInSegment env with
  | none => none
  | some contacts =>
      some (contacts.map fun c =>
        { contactId := c.id, attributes := c.attributes,
          surveyUrl := getContactSurveyLink c.id, expirationDays := expirationDays })

/-! ## Bulk survey copy reporting -/

/-- Metadata recorded for one copy target before dispatch. -/
structure CopyTargetMeta where
  projectName : String
  environmentType : String
deriving DecidableEq, Repr

/-- The settled outcome of one dispatched copy operation. -/
inductive SettledResult
  | fulfilled
  | rejected (reason : String)
deriving DecidableEq, Repr

/-- Whether a settled result is fulfilled. -/
def SettledResult.isFulfilled : SettledResult → Bool
  | .fulfilled => true
  | .rejected _ => false

/-- The toasts the copy form can show. -/
inductive CopyToast
  | success
  | successWithErrors (successCount errorCount : Nat)
  | failureDetail (projectName environmentType errorMessage : String)
deriving DecidableEq, Repr

/-- Number of fulfilled copy operations. -/
def copySuccessCount (results : List (CopyTargetMeta × SettledResult)) : Nat :=
  (results.filter fun r => r.2.isFulfilled).length

/-- Number of rejected copy operations. -/
def copyErrorCount (results : List (CopyTargetMeta × SettledResult)) : Nat :=
  (results.filter fun r => !(r.2.isFulfilled)).length

/-- Whether a toast is a per-failure detail toast. -/
def CopyToast.isFailureDetail : CopyToast → Bool
  | .failureDetail _ _ _ => true
  | _ => false

/-- The summary toast of the copy form: success when nothing failed,
partial success with both counts when some but not all failed, nothing
when every operation failed. -/
def copyHeadToasts (results : List (CopyTargetMeta × SettledResult)) :
    List CopyToast :=
  if 0 < copySuccessCount results then
    if copyErrorCount results = 0 then [CopyToast.success]
    else [CopyToast.successWithErrors (copySuccessCount results)
            (copyErrorCount results)]
  else []

/-- One detail toast per rejected operation, with its recorded project
name, environment type and formatted error. `fmt` stands for
`getFormattedErrorMessage`. -/
def failureDetailToasts (fmt : String → String)
    (results : List (CopyTargetMeta × SettledResult)) : List CopyToast :=
  results.filterMap fun r =>
    match r.2 with
    | .fulfilled => none
    | .rejected reason =>
        some (CopyToast.failureDetail r.1.projectName r.1.environmentType (fmt reason))

/-- Shallow embedding of the toast reporting of `onSubmit` in
modules/survey/list/components/copy-survey-form.tsx: after the
all-settled join over every target, the summary toast followed by the
per-failure detail toasts. -/
def copySurveyToasts (fmt : String → String)
    (results : List (CopyTargetMeta × SettledResult)) : List CopyToast :=
  copyHeadToasts results ++ failureDetailToasts fmt results

/-! ## Default team membership creation -/

/-- A team row. -/
structure Team where
  id : String
  organizationId : String
deriving DecidableEq, Repr

/-- Team roles {admin, contributor}. -/
inductive TeamRole
  | admin
  | contributor
deriving DecidableEq, Repr

/-- A created team-membership row. -/
structure TeamUser where
  teamId : String
  userId : String
  role : TeamRole
deriving DecidableEq, Repr

/-- The invite shape passed to `createTeamMembership`. -/
structure MembershipInvite where
  organizationId : String
  role : OrganizationRole
  teamIds : List String
deriving DecidableEq, Repr

/-- The environment of the signup team module: configured default ids,
team rows, organization memberships, and whether the storage layer fails
the membership create. -/
structure TeamEnv where
  defaultTeamId : Option String
  defaultOrganizationId : Option String
  teams : List Team
  membershipRole : String → String → Option OrganizationRole
  teamUserCreateFails : Bool

/-- `getAccessFlags`: owner or manager. -/
def isOwnerOrManager (role : OrganizationRole) : Bool :=
  match role with
  | .owner => true
  | .manager => true
  | .member => false

/-- Team lookup by id within an organization. -/
def findTeam (env : TeamEnv) (teamId organizationId : String) : Option Team :=
  env.teams.find? fun t => t.id == teamId && t.organizationId == organizationId

/-- Shallow embedding of `createTeamMembership`
(modules/auth/signup/lib/team.ts): for each invited team that exists in
the organization, create a team-user row (admin for owner/manager,
contributor otherwise); storage failures abort with a DatabaseError. -/
def createTeamMembership (env : TeamEnv) (invite : MembershipInvite)
    (userId : String) : Except ActionError (List TeamUser) :=
  if env.teamUserCreateFails then
    .error (.databaseError "team membership create failed")
  else
    .ok ((invite.teamIds.filter fun tid =>
            (findTeam env tid invite.organizationId).isSome).map fun tid =>
      { teamId := tid, userId := userId,
        role := if isOwnerOrManager invite.role then .admin else .contributor })

/-- `getTeamByTeamIdOrganizationId` (modules/auth/signup/lib/team.ts):
throws when the team does not exist. -/
def getTeamByTeamIdOrganizationId (env : TeamEnv)
    (teamId organizationId : String) : Except ActionError Team :=
  match findTeam env teamId organizationId with
  | some t => .ok t
  | none => .error (.unknownError "Team not found")

/-- An error log entry emitted by the signup team module. -/
inductive LogEvent
  | errorLogged (message : String)
deriving DecidableEq, Repr

/-- The try-block of `createDefaultTeamMembership`
(modules/auth/signup/lib/team.ts): early logged returns for missing
configuration or membership, propagated exceptions from the team lookup
and the membership create. -/
def createDefaultTeamMembershipBody (env : TeamEnv) (userId : String) :
    Except ActionError (List LogEvent × List TeamUser) :=
  match env.defaultTeamId with
  | none => .ok ([.errorLogged "Default team ID not found"], [])
  | some defaultTeamId =>
    match env.defaultOrganizationId with
    | none => .ok ([.errorLogged "Default organization ID not found"], [])
    | some defaultOrganizationId =>
      match getTeamByTeamIdOrganizationId env defaultTeamId defaultOrganizationId with
      | .error e => .error e
      | .ok defaultTeam =>
        match env.membershipRole userId defaultTeam.organizationId with
        | none => .ok ([.errorLogged "Organization membership not found"], [])
        | some membershipRole =>
          match createTeamMembership env
              { organizationId := defaultTeam.organizationId,
                role := membershipRole, teamIds := [defaultTeamId] } userId with
          | .error e => .error e
          | .ok created => .ok ([], created)

/-- Shallow embedding of `createDefaultTeamMembership`
(modules/auth/signup/lib/team.ts): the whole body runs inside a
try/catch whose handler only logs, so the function resolves normally on
every input. -/
def createDefaultTeamMembership (env : TeamEnv) (userId : String) :
    Except ActionError (List LogEvent × List TeamUser) :=
  match createDefaultTeamMembershipBody env userId with
  | .ok r => .ok r
  | .error _ => .ok ([.errorLogged "Error creating default team membership"], [])

/-! ## Concrete fixtures used by the witness theorems -/

/-- A user who is an organization owner with no project/team grants. -/
def ownerUser : UserAccess :=
  { organizationRole := some .owner, projectPermission := fun _ => none,
    teamPermission := fun _ => none }

/-- A user with no role and no grants at all. -/
def noAccessUser : UserAccess :=
  { organizationRole := none, projectPermission := fun _ => none,
    teamPermission := fun _ => none }

/-- An environment with no integration rows. -/
def emptyIntegrationStore : IntegrationStore := fun _ => none

/-- An environment holding one plain integration with a data payload. -/
def plainOnlyStore : IntegrationStore := fun t =>
  if t = .plain then
    some { type := .plain, config := { key := "old", data := ["d1"] } }
  else none

/-- A stand-in symmetric cipher: concatenation with the server key. -/
def concatCipher (s k : String) : String := s ++ k

/-- A store holding one contact with email john@example.com. -/
def johnStore : ContactStore :=
  { contacts := [{ id := "c1", attributes := [("email", "john@example.com")] }],
    attributeKeys := ["email", "name"] }

/-- A CSV row for john@example.com with a name column. -/
def johnRow : CsvRow := [("email", "john@example.com"), ("name", "John")]

/-- The identity column→key mapping of the john fixture. -/
def johnMap : List (String × String) := [("email", "email"), ("name", "name")]

/-- An empty store that already knows the email and company keys. -/
def companyStore : ContactStore :=
  { contacts := [], attributeKeys := ["email", "company"] }

/-- A CSV row whose company value is whitespace-only. -/
def companyRow : CsvRow := [("email", "john@example.com"), ("company", "  ")]

/-- The identity column→key mapping of the company fixture. -/
def companyMap : List (String × String) :=
  [("email", "email"), ("company", "company")]

/-- A segment environment whose three lookup steps all succeed with one
matching contact. -/
def okSegmentEnv : SegmentEnv :=
  { getSegmentResult := .ok (), filterToQueryResult := .ok (),
    contactsResult := .ok [{ id := "contact-1", attributes := [("email", "t@e.com")] }] }

/-- The production-environment copy target of the fixture batch. -/
def prodMeta : CopyTargetMeta :=
  { projectName := "P", environmentType := "production" }

/-- A two-target batch: one fulfilled, one rejected. -/
def copyResultsFixture : List (CopyTargetMeta × SettledResult) :=
  [({ projectName := "P", environmentType := "development" }, .fulfilled),
   (prodMeta, .rejected "boom")]

/-- A team environment where every lookup succeeds. -/
def okTeamEnv : TeamEnv :=
  { defaultTeamId := some "team-123", defaultOrganizationId := some "org-1",
    teams := [{ id := "team-123", organizationId := "org-1" }],
    membershipRole := fun _ _ => some .member, teamUserCreateFails := false }

/-! ## Helper lemmas -/

theorem checkAuthorizationUpdated_ok_iff (u : UserAccess) (access : List AccessRule) :
    checkAuthorizationUpdated u access = .ok () ↔
      access.any (ruleSatisfied u) = true := by
  unfold checkAuthorizationUpdated
  split
  next h => simp [h]
  next h => simp [h]

theorem checkAuthorizationUpdated_error_iff (u : UserAccess) (access : List AccessRule) :
    checkAuthorizationUpdated u access = .error .authorizationError ↔
      access.any (ruleSatisfied u) = false := by
  unfold checkAuthorizationUpdated
  split
  next h => simp [h]
  next h => simp [Bool.eq_false_iff, h]

theorem organizationRule_satisfied_iff (u : UserAccess) :
    ruleSatisfied u (.organization [.owner, .manager]) = true ↔
      ∃ role, u.organizationRole = some role ∧
        (role = OrganizationRole.owner ∨ role = OrganizationRole.manager) := by
  cases h : u.organizationRole with
  | none => simp [ruleSatisfied, h]
  | some role =>
      cases role <;> simp [ruleSatisfied, h, List.contains]

theorem projectTeamRule_satisfied_iff (u : UserAccess) (projectId : String) :
    ruleSatisfied u (.projectTeam .readWrite projectId) = true ↔
      ∃ p, u.projectPermission projectId = some p ∧ p.meets .readWrite = true := by
  cases h : u.projectPermission projectId with
  | none => simp [ruleSatisfied, h]
  | some p => simp [ruleSatisfied, h]

/-! ## Claim theorems -/

/-- Claim C1: the authorization evaluator succeeds exactly when at least
one access rule is satisfied by the user's resolved role/permission in
that rule's scope, and fails with an AuthorizationError exactly when no
rule is satisfied (OR semantics); in particular, for the two-rule list
[{organization, roles:[owner,manager]}, {projectTeam,
minPermission:readWrite}] it succeeds iff the user is an organization
owner/manager or holds project permission ≥ readWrite. -/
theorem checkAuthorizationUpdated_or_semantics (u : UserAccess)
    (access : List AccessRule) (projectId : String) :
    (checkAuthorizationUpdated u access = .ok () ↔
      ∃ r ∈ access, ruleSatisfied u r = true) ∧
    (checkAuthorizationUpdated u access = .error .authorizationError ↔
      ∀ r ∈ access, ruleSatisfied u r = false) ∧
    (checkAuthorizationUpdated u (plainIntegrationAccess projectId) = .ok () ↔
      ((∃ role, u.organizationRole = some role ∧
          (role = OrganizationRole.owner ∨ role = OrganizationRole.manager)) ∨
       (∃ p, u.projectPermission projectId = some p ∧ p.meets .readWrite = true))) := by
  refine ⟨?_, ?_, ?_⟩
  · rw [checkAuthorizationUpdated_ok_iff, List.any_eq_true]
  · rw [checkAuthorizationUpdated_error_iff, List.any_eq_false]
    constructor
    · intro h r hr
      exact Bool.eq_false_iff.mpr (h r hr)
    · intro h r hr
      exact Bool.eq_false_iff.mp (h r hr)
  · rw [checkAuthorizationUpdated_ok_iff, plainIntegrationAccess]
    simp only [List.any_cons, List.any_nil, Bool.or_false, Bool.or_eq_true]
    rw [organizationRule_satisfied_iff, projectTeamRule_satisfied_iff]

/-- Witness for C1: an organization owner passes the plain-integration
access check. -/
theorem checkAuthorizationUpdated_or_semantics_witness :
    checkAuthorizationUpdated ownerUser (plainIntegrationAccess "p1") = .ok () :=
  (checkAuthorizationUpdated_or_semantics ownerUser [] "p1").2.2.mpr
    (Or.inl ⟨.owner, rfl, Or.inl rfl⟩)

/-- Claim C2: when the authorization check of
`connectPlainIntegrationAction` fails, the action returns the
AuthorizationError and the environment's integration state is unchanged:
no mutating domain operation has occurred. -/
theorem connectPlainIntegrationAction_auth_failure_frame (u : UserAccess)
    (projectId key : String) (symmetricEncrypt : String → String → String)
    (encryptionKey : String) (σ : IntegrationStore)
    (h : checkAuthorizationUpdated u (plainIntegrationAccess projectId) =
      .error .authorizationError) :
    connectPlainIntegrationAction u projectId key symmetricEncrypt encryptionKey σ =
      (.error .authorizationError, σ) := by
  unfold connectPlainIntegrationAction
  rw [h]

/-- Witness for C2: a user with no role and no permissions fails the
check and the store is untouched. -/
theorem connectPlainIntegrationAction_auth_failure_frame_witness :
    connectPlainIntegrationAction noAccessUser "p1" "api-key" concatCipher
      "srv" emptyIntegrationStore =
      (.error .authorizationError, emptyIntegrationStore) :=
  connectPlainIntegrationAction_auth_failure_frame noAccessUser "p1" "api-key"
    concatCipher "srv" emptyIntegrationStore (by rfl)

/-- Claim C8: on a successful connect, the upserted plain-integration row
stores the credential only as its symmetric encryption under the
server-held key (not the plaintext, whenever the cipher changes the
input), and the data payload of a previously stored plain integration is
preserved unchanged; rows of other types are untouched. -/
theorem connectPlainIntegrationAction_encrypts_and_preserves (u : UserAccess)
    (projectId key : String) (symmetricEncrypt : String → String → String)
    (encryptionKey : String) (σ : IntegrationStore)
    (h : checkAuthorizationUpdated u (plainIntegrationAccess projectId) = .ok ()) :
    ∃ i, (connectPlainIntegrationAction u projectId key symmetricEncrypt
            encryptionKey σ).1 = .ok i ∧
      (connectPlainIntegrationAction u projectId key symmetricEncrypt
         encryptionKey σ).2 .plain = some i ∧
      i.type = .plain ∧
      i.config.key = symmetricEncrypt key encryptionKey ∧
      (symmetricEncrypt key encryptionKey ≠ key → i.config.key ≠ key) ∧
      (∀ ex, σ .plain = some ex → ex.type = .plain →
        i.config.data = ex.config.data) ∧
      (σ .plain = none → i.config.data = []) ∧
      (∀ t, t ≠ IntegrationType.plain →
        (connectPlainIntegrationAction u projectId key symmetricEncrypt
           encryptionKey σ).2 t = σ t) := by
  unfold connectPlainIntegrationAction
  rw [h]
  refine ⟨_, rfl, ?_, rfl, rfl, ?_, ?_, ?_, ?_⟩
  · simp [createOrUpdateIntegration]
  · intro hne
    exact hne
  · intro ex hex htype
    simp [getIntegrationByType, hex, htype]
  · intro hnone
    simp [getIntegrationByType, hnone]
  · intro t ht
    simp [createOrUpdateIntegration, ht]

/-- Witness for C8: connecting with an owner over an existing plain row
keeps its payload and stores the encrypted key. -/
theorem connectPlainIntegrationAction_encrypts_and_preserves_witness :
    ∃ i, (connectPlainIntegrationAction ownerUser "p1" "api-key" concatCipher
            "srv" plainOnlyStore).1 = .ok i ∧
      (connectPlainIntegrationAction ownerUser "p1" "api-key" concatCipher
         "srv" plainOnlyStore).2 .plain = some i ∧
      i.type = .plain ∧
      i.config.key = concatCipher "api-key" "srv" ∧
      (concatCipher "api-key" "srv" ≠ "api-key" → i.config.key ≠ "api-key") ∧
      (∀ ex, plainOnlyStore .plain = some ex → ex.type = .plain →
        i.config.data = ex.config.data) ∧
      (plainOnlyStore .plain = none → i.config.data = []) ∧
      (∀ t, t ≠ IntegrationType.plain →
        (connectPlainIntegrationAction ownerUser "p1" "api-key" concatCipher
           "srv" plainOnlyStore).2 t = plainOnlyStore t) :=
  connectPlainIntegrationAction_encrypts_and_preserves ownerUser "p1" "api-key"
    concatCipher "srv" plainOnlyStore (by rfl)

/-! ## CSV import helper lemmas -/

theorem skip_results_characterization (store : ContactStore)
    (amap : List (String × String)) (l : List CsvRow) :
    (l.map (processRow store .skip amap)).filterMap Prod.fst =
      (l.filter fun row => (findExistingContact store (rowEmail row)).isNone).map
        (fun row => { id := "created", attributes := rowAttributes amap row }) := by
  induction l with
  | nil => rfl
  | cons r t ih =>
      cases h : findExistingContact store (rowEmail r) <;>
        simp [processRow, h, List.filter_cons, ih]

theorem skip_effects_characterization (store : ContactStore)
    (amap : List (String × String)) (l : List CsvRow) :
    (l.map (processRow store .skip amap)).flatMap Prod.snd =
      (l.filter fun row => (findExistingContact store (rowEmail row)).isNone).map
        (fun row => WriteEffect.createContact (rowAttributes amap row)) := by
  induction l with
  | nil => rfl
  | cons r t ih =>
      cases h : findExistingContact store (rowEmail r) <;>
        simp [processRow, h, List.filter_cons, ih]

theorem csvImportValid_components (amap : List (String × String))
    (csv : List CsvRow) (store : ContactStore)
    (hv : csvImportValid amap csv store = true) :
    csv.all rowEmailValid = true ∧
      ((missingKeys amap csv store).any fun k => trimString k == "") = false ∧
      ((missingKeys amap csv store).any fun k =>
        decide (255 < (trimString k).length)) = false := by
  unfold csvImportValid at hv
  simp only [Bool.and_eq_true, Bool.not_eq_true'] at hv
  exact ⟨hv.1.1, hv.1.2, hv.2⟩

theorem createContactsFromCSV_valid_skip (csv : List CsvRow)
    (amap : List (String × String)) (store : ContactStore)
    (hv : csvImportValid amap csv store = true) :
    createContactsFromCSV csv .skip amap store =
      (.ok ((csv.filter fun row =>
          (findExistingContact store (rowEmail row)).isNone).map
          (fun row => { id := "created", attributes := rowAttributes amap row })),
       keyWriteEffects amap csv store ++
         (csv.filter fun row =>
           (findExistingContact store (rowEmail row)).isNone).map
           (fun row => WriteEffect.createContact (rowAttributes amap row))) := by
  obtain ⟨h1, h2, h3⟩ := csvImportValid_components amap csv store hv
  unfold createContactsFromCSV
  rw [h1, h2, h3]
  simp only [Bool.not_true, Bool.false_eq_true, if_false, if_true]
  rw [skip_results_characterization, skip_effects_characterization]

/-- Claim C3: a CSV input in which some row misses the identifying email
attribute or carries an empty email fails with a ValidationError and
issues no write call at all. -/
theorem createContactsFromCSV_missing_email_validation (csv : List CsvRow)
    (action : DuplicateAction) (amap : List (String × String))
    (store : ContactStore)
    (h : ∃ r ∈ csv, r.lookup "email" = none ∨ r.lookup "email" = some "") :
    createContactsFromCSV csv action amap store =
      (.error (.validationError "Missing or empty email value in CSV row"), []) := by
  have hall : csv.all rowEmailValid = false := by
    rcases h with ⟨r, hr, hc⟩
    have hrow : rowEmailValid r = false := by
      rcases hc with h1 | h1 <;> simp [rowEmailValid, h1]
    rw [Bool.eq_false_iff]
    intro hb
    rw [List.all_eq_true] at hb
    have := hb r hr
    rw [hrow] at this
    exact Bool.false_ne_true this
  unfold createContactsFromCSV
  rw [hall]
  rfl

/-- Witness for C3: a one-row CSV without an email column is rejected
with no write. -/
theorem createContactsFromCSV_missing_email_validation_witness :
    (∃ r ∈ [[("name", "John")]], r.lookup "email" = none ∨
        r.lookup "email" = some "") ∧
    createContactsFromCSV [[("name", "John")]] .skip [("name", "name")]
        { contacts := [], attributeKeys := [] } =
      (.error (.validationError "Missing or empty email value in CSV row"), []) :=
  ⟨by decide,
   createContactsFromCSV_missing_email_validation [[("name", "John")]] .skip
     [("name", "name")] { contacts := [], attributeKeys := [] } (by decide)⟩

/-- Claim C4: a CSV input using an attribute key that is blank after
trimming or longer than 255 characters after trimming (and not already
known to the environment, so it would have to be auto-created) fails
with a ValidationError before any write: no contact and no attribute key
is created. -/
theorem createContactsFromCSV_bad_attribute_key_validation (csv : List CsvRow)
    (action : DuplicateAction) (amap : List (String × String))
    (store : ContactStore) (k : String)
    (hk : k ∈ csvKeys amap csv)
    (hnew : store.attributeKeys.contains k = false)
    (hbad : trimString k = "" ∨ 255 < (trimString k).length) :
    ∃ m, createContactsFromCSV csv action amap store =
      (.error (.validationError m), []) := by
  have hmiss : k ∈ missingKeys amap csv store := by
    unfold missingKeys
    exact List.mem_filter.mpr ⟨hk, by rw [Bool.not_eq_true']; exact hnew⟩
  by_cases hall : csv.all rowEmailValid = true
  · by_cases hblank : ((missingKeys amap csv store).any fun k =>
        trimString k == "") = true
    · refine ⟨"Invalid attribute keys: empty or whitespace-only keys are not allowed", ?_⟩
      unfold createContactsFromCSV
      rw [hall, hblank]
      rfl
    · have hlong : ((missingKeys amap csv store).any fun k =>
          decide (255 < (trimString k).length)) = true := by
        rcases hbad with hb | hb
        · exfalso
          apply hblank
          rw [List.any_eq_true]
          exact ⟨k, hmiss, by simp [hb]⟩
        · rw [List.any_eq_true]
          exact ⟨k, hmiss, by simp [hb]⟩
      refine ⟨"Invalid attribute keys: keys must be 255 characters or less", ?_⟩
      unfold createContactsFromCSV
      rw [hall, Bool.eq_false_iff.mpr hblank, hlong]
      rfl
  · refine ⟨"Missing or empty email value in CSV row", ?_⟩
    unfold createContactsFromCSV
    rw [Bool.eq_false_iff.mpr hall]
    rfl

/-- Witness for C4: a whitespace-only attribute key aborts the import
with no write. -/
theorem createContactsFromCSV_bad_attribute_key_validation_witness :
    ("   " ∈ csvKeys [("email", "email")]
        [[("email", "john@example.com"), ("   ", "value")]] ∧
      (ContactStore.attributeKeys
          { contacts := [], attributeKeys := ["email"] }).contains "   " = false ∧
      (trimString "   " = "" ∨ 255 < (trimString "   ").length)) ∧
    ∃ m, createContactsFromCSV [[("email", "john@example.com"), ("   ", "value")]]
        .skip [("email", "email")] { contacts := [], attributeKeys := ["email"] } =
      (.error (.validationError m), []) :=
  ⟨⟨by decide, by decide, Or.inl (by decide)⟩,
   createContactsFromCSV_bad_attribute_key_validation
     [[("email", "john@example.com"), ("   ", "value")]] .skip [("email", "email")]
     { contacts := [], attributeKeys := ["email"] } "   " (by decide) (by decide)
     (Or.inl (by decide))⟩

/-- Claim C5: under the `skip` policy, a CSV row whose email matches an
existing contact causes no create and no update call for that contact:
the result sequence and the create calls range exactly over the rows
without an existing match, no update or attribute-delete call is issued
at all, and the matched row is excluded from that range. -/
theorem createContactsFromCSV_skip_policy (csv : List CsvRow)
    (amap : List (String × String)) (store : ContactStore) (r : CsvRow)
    (c : CsvContact)
    (hv : csvImportValid amap csv store = true)
    (hr : r ∈ csv)
    (hm : findExistingContact store (rowEmail r) = some c) :
    createContactsFromCSV csv .skip amap store =
      (.ok ((csv.filter fun row =>
          (findExistingContact store (rowEmail row)).isNone).map
          (fun row => { id := "created", attributes := rowAttributes amap row })),
       keyWriteEffects amap csv store ++
         (csv.filter fun row =>
           (findExistingContact store (rowEmail row)).isNone).map
           (fun row => WriteEffect.createContact (rowAttributes amap row))) ∧
    (∀ cid attrs, WriteEffect.updateContact cid attrs ∉
      (createContactsFromCSV csv .skip amap store).2) ∧
    (∀ cid ks, WriteEffect.deleteContactAttributes cid ks ∉
      (createContactsFromCSV csv .skip amap store).2) ∧
    r ∉ csv.filter fun row => (findExistingContact store (rowEmail row)).isNone := by
  have hchar := createContactsFromCSV_valid_skip csv amap store hv
  have heffects : ∀ e ∈ (createContactsFromCSV csv .skip amap store).2,
      (∃ ks, e = WriteEffect.createAttributeKeys ks) ∨
        ∃ attrs, e = WriteEffect.createContact attrs := by
    intro e he
    rw [hchar] at he
    simp only [List.mem_append] at he
    rcases he with he | he
    · simp only [keyWriteEffects] at he
      split at he
      · simp at he
      · simp only [List.mem_singleton] at he
        exact Or.inl ⟨_, he⟩
    · rw [List.mem_map] at he
      obtain ⟨row, _, hrow⟩ := he
      exact Or.inr ⟨_, hrow.symm⟩
  refine ⟨hchar, ?_, ?_, ?_⟩
  · intro cid attrs hmem
    rcases heffects _ hmem with ⟨ks, h⟩ | ⟨attrs', h⟩ <;> simp at h
  · intro cid ks hmem
    rcases heffects _ hmem with ⟨ks', h⟩ | ⟨attrs', h⟩ <;> simp at h
  · intro hmemf
    rw [List.mem_filter] at hmemf
    rw [hm] at hmemf
    simp at hmemf

/-- Witness for C5: a matching row under `skip` yields no update call. -/
theorem createContactsFromCSV_skip_policy_witness :
    (csvImportValid johnMap [johnRow] johnStore = true ∧
      johnRow ∈ [johnRow] ∧
      findExistingContact johnStore (rowEmail johnRow) =
        some { id := "c1", attributes := [("email", "john@example.com")] }) ∧
    (∀ cid attrs, WriteEffect.updateContact cid attrs ∉
      (createContactsFromCSV [johnRow] .skip johnMap johnStore).2) :=
  ⟨⟨by decide, by decide, by decide⟩,
   (createContactsFromCSV_skip_policy [johnRow] johnMap johnStore johnRow
     { id := "c1", attributes := [("email", "john@example.com")] }
     (by decide) (by decide) (by decide)).2.1⟩

/-- Claim C6: empty or whitespace-only attribute values are silently
dropped: the persisted attribute set of a row contains exactly the
columns whose value is non-blank after trimming (renamed through the
attribute map), and a non-matching row is created with exactly that
attribute set, with no error. -/
theorem createContactsFromCSV_drops_blank_values (csv : List CsvRow)
    (amap : List (String × String)) (store : ContactStore) (row : CsvRow)
    (hv : csvImportValid amap csv store = true)
    (hrow : row ∈ csv)
    (hnm : findExistingContact store (rowEmail row) = none) :
    (∀ k v, (k, v) ∈ rowAttributes amap row ↔
      ∃ col, (col, v) ∈ row ∧ trimString v ≠ "" ∧ k = mappedKey amap col) ∧
    WriteEffect.createContact (rowAttributes amap row) ∈
      (createContactsFromCSV csv .skip amap store).2 ∧
    (∃ rs, (createContactsFromCSV csv .skip amap store).1 = .ok rs ∧
      ({ id := "created", attributes := rowAttributes amap row } : CsvContact) ∈ rs) := by
  have hchar := createContactsFromCSV_valid_skip csv amap store hv
  have hfilter : row ∈ csv.filter fun row =>
      (findExistingContact store (rowEmail row)).isNone := by
    rw [List.mem_filter, hnm]
    exact ⟨hrow, rfl⟩
  refine ⟨?_, ?_, ?_⟩
  · intro k v
    constructor
    · intro hmem
      unfold rowAttributes at hmem
      rw [List.mem_map] at hmem
      obtain ⟨⟨col, w⟩, hp, hf⟩ := hmem
      rw [List.mem_filter] at hp
      rw [Prod.mk.injEq] at hf
      obtain ⟨hfk, hfv⟩ := hf
      subst hfv
      refine ⟨col, hp.1, ?_, hfk.symm⟩
      have := hp.2
      simpa [bne_iff_ne] using this
    · rintro ⟨col, hcol, hne, hkeq⟩
      unfold rowAttributes
      rw [List.mem_map]
      refine ⟨(col, v), ?_, by rw [hkeq]⟩
      rw [List.mem_filter]
      exact ⟨hcol, by simpa [bne_iff_ne] using hne⟩
  · rw [hchar]
    simp only [List.mem_append]
    exact Or.inr (List.mem_map_of_mem _ hfilter)
  · rw [hchar]
    exact ⟨_, rfl, List.mem_map_of_mem _ hfilter⟩

/-- Witness for C6: a row with a blank company column is created with
only its non-blank attributes. -/
theorem createContactsFromCSV_drops_blank_values_witness :
    (csvImportValid companyMap [companyRow] companyStore = true ∧
      companyRow ∈ [companyRow] ∧
      findExistingContact companyStore (rowEmail companyRow) = none) ∧
    WriteEffect.createContact (rowAttributes companyMap companyRow) ∈
      (createContactsFromCSV [companyRow] .skip companyMap companyStore).2 :=
  ⟨⟨by decide, by decide, by decide⟩,
   (createContactsFromCSV_drops_blank_values [companyRow] companyMap
     companyStore companyRow (by decide) (by decide) (by decide)).2.1⟩

/-! ## Personal-link generation (C7) -/

/-- Claim C7: `generatePersonalLinks` returns null exactly when segment
resolution, filter translation or the contact query fails (the error is
swallowed), returns the empty sequence exactly when the segment resolves
with zero matching contacts, and otherwise returns one record per
matching contact pairing its attributes with the minted link and the
expiration window used. -/
theorem generatePersonalLinks_null_vs_empty (env : SegmentEnv)
    (mint : String → String) (expirationDays : Option Nat) :
    (generatePersonalLinks env mint expirationDays = none ↔
      ((∃ e, env.getSegmentResult = .error e) ∨
       (∃ e, env.filterToQueryResult = .error e) ∨
       (∃ e, env.contactsResult = .error e))) ∧
    (generatePersonalLinks env mint expirationDays = some [] ↔
      (env.getSegmentResult = .ok () ∧ env.filterToQueryResult = .ok () ∧
       env.contactsResult = .ok [])) ∧
    (∀ contacts, env.getSegmentResult = .ok () →
      env.filterToQueryResult = .ok () → env.contactsResult = .ok contacts →
      generatePersonalLinks env mint expirationDays =
        some (contacts.map fun c =>
          { contactId := c.id, attributes := c.attributes,
            surveyUrl := mint c.id, expirationDays := expirationDays })) := by
  rcases h1 : env.getSegmentResult with e1 | u1
  · refine ⟨?_, ?_, ?_⟩
    · simp [generatePersonalLinks, getContactsInSegment, h1]
    · simp [generatePersonalLinks, getContactsInSegment, h1]
    · intro contacts hs _ _
      exact absurd hs (by simp)
  · cases u1
    rcases h2 : env.filterToQueryResult with e2 | u2
    · refine ⟨?_, ?_, ?_⟩
      · simp [generatePersonalLinks, getContactsInSegment, h1, h2]
      · simp [generatePersonalLinks, getContactsInSegment, h1, h2]
      · intro contacts _ hf _
        exact absurd hf (by simp)
    · cases u2
      rcases h3 : env.contactsResult with e3 | contacts
      · refine ⟨?_, ?_, ?_⟩
        · simp [generatePersonalLinks, getContactsInSegment, h1, h2, h3]
        · simp [generatePersonalLinks, getContactsInSegment, h1, h2, h3]
        · intro contacts _ _ hc
          exact absurd hc (by simp)
      · refine ⟨?_, ?_, ?_⟩
        · simp [generatePersonalLinks, getContactsInSegment, h1, h2, h3]
        · simp [generatePersonalLinks, getContactsInSegment, h1, h2, h3]
        · intro contacts' _ _ hc
          rw [Except.ok.injEq] at hc
          subst hc
          simp [generatePersonalLinks, getContactsInSegment, h1, h2, h3]

/-- Witness for C7: a fully successful pipeline with one contact yields
one record carrying the minted link and the window. -/
theorem generatePersonalLinks_null_vs_empty_witness :
    generatePersonalLinks okSegmentEnv (fun i => "url-" ++ i) (some 7) =
      some [{ contactId := "contact-1", attributes := [("email", "t@e.com")],
              surveyUrl := "url-contact-1", expirationDays := some 7 }] :=
  (generatePersonalLinks_null_vs_empty okSegmentEnv
      (fun i => "url-" ++ i) (some 7)).2.2
    [{ id := "contact-1", attributes := [("email", "t@e.com")] }] rfl rfl rfl

/-! ## Bulk copy reporting helper lemmas (C9) -/

theorem copyCounts_total (results : List (CopyTargetMeta × SettledResult)) :
    copySuccessCount results + copyErrorCount results = results.length := by
  unfold copySuccessCount copyErrorCount
  induction results with
  | nil => rfl
  | cons r t ih =>
      cases h : r.2.isFulfilled <;> simp [List.filter_cons, h] <;> omega

theorem success_not_mem_failureDetailToasts (fmt : String → String)
    (results : List (CopyTargetMeta × SettledResult)) :
    CopyToast.success ∉ failureDetailToasts fmt results := by
  intro h
  rw [failureDetailToasts, List.mem_filterMap] at h
  obtain ⟨⟨meta, res⟩, _, hr⟩ := h
  cases res <;> simp at hr

theorem successWithErrors_not_mem_failureDetailToasts (fmt : String → String)
    (results : List (CopyTargetMeta × SettledResult)) (s e : Nat) :
    CopyToast.successWithErrors s e ∉ failureDetailToasts fmt results := by
  intro h
  rw [failureDetailToasts, List.mem_filterMap] at h
  obtain ⟨⟨meta, res⟩, _, hr⟩ := h
  cases res <;> simp at hr

theorem mem_failureDetailToasts_isFailureDetail (fmt : String → String)
    (results : List (CopyTargetMeta × SettledResult)) :
    ∀ t ∈ failureDetailToasts fmt results, t.isFailureDetail = true := by
  intro t ht
  rw [failureDetailToasts, List.mem_filterMap] at ht
  obtain ⟨⟨meta, res⟩, _, hr⟩ := ht
  cases res <;> simp at hr
  rw [← hr]
  rfl

theorem length_failureDetailToasts (fmt : String → String)
    (results : List (CopyTargetMeta × SettledResult)) :
    (failureDetailToasts fmt results).length = copyErrorCount results := by
  unfold failureDetailToasts copyErrorCount
  induction results with
  | nil => rfl
  | cons r t ih =>
      obtain ⟨meta, res⟩ := r
      cases res <;>
        simp [List.filterMap_cons, List.filter_cons, SettledResult.isFulfilled, ih]

theorem countP_copyHeadToasts (results : List (CopyTargetMeta × SettledResult)) :
    (copyHeadToasts results).countP CopyToast.isFailureDetail = 0 := by
  unfold copyHeadToasts
  split
  · split <;> rfl
  · rfl

/-- Claim C9: for a batch copy of N targets of which M fail, the success
toast is shown iff M = 0 and N > 0, the partial-success toast carrying
the success and error counts is shown iff 0 < M < N, and each rejected
target contributes its own detail toast (project name, environment type,
formatted error), with exactly M detail toasts in total — the batch is
reported from the all-settled results rather than aborted on the first
failure. -/
theorem copySurveyToasts_reporting (fmt : String → String)
    (results : List (CopyTargetMeta × SettledResult)) :
    (CopyToast.success ∈ copySurveyToasts fmt results ↔
      copyErrorCount results = 0 ∧ 0 < results.length) ∧
    (CopyToast.successWithErrors (copySuccessCount results)
        (copyErrorCount results) ∈ copySurveyToasts fmt results ↔
      0 < copyErrorCount results ∧ copyErrorCount results < results.length) ∧
    (∀ meta reason, (meta, SettledResult.rejected reason) ∈ results →
      CopyToast.failureDetail meta.projectName meta.environmentType (fmt reason) ∈
        copySurveyToasts fmt results) ∧
    (copySurveyToasts fmt results).countP CopyToast.isFailureDetail =
      copyErrorCount results := by
  have htot := copyCounts_total results
  refine ⟨?_, ?_, ?_, ?_⟩
  · rw [copySurveyToasts, List.mem_append]
    constructor
    · rintro (h | h)
      · rw [copyHeadToasts] at h
        split at h
        next h1 =>
          split at h
          next h2 => exact ⟨h2, by omega⟩
          next h2 => simp at h
        next h1 => simp at h
      · exact absurd h (success_not_mem_failureDetailToasts fmt results)
    · rintro ⟨h2, hlen⟩
      left
      rw [copyHeadToasts]
      have h1 : 0 < copySuccessCount results := by omega
      rw [if_pos h1, if_pos h2]
      exact List.mem_singleton.mpr rfl
  · rw [copySurveyToasts, List.mem_append]
    constructor
    · rintro (h | h)
      · rw [copyHeadToasts] at h
        split at h
        next h1 =>
          split at h
          next h2 => simp [h2] at h
          next h2 =>
            refine ⟨by omega, by omega⟩
        next h1 => simp at h
      · exact absurd h
          (successWithErrors_not_mem_failureDetailToasts fmt results _ _)
    · rintro ⟨h2, hlen⟩
      left
      rw [copyHeadToasts]
      have h1 : 0 < copySuccessCount results := by omega
      rw [if_pos h1, if_neg (by omega)]
      exact List.mem_singleton.mpr rfl
  · intro meta reason hmem
    rw [copySurveyToasts, List.mem_append]
    right
    rw [failureDetailToasts, List.mem_filterMap]
    exact ⟨(meta, .rejected reason), hmem, rfl⟩
  · rw [copySurveyToasts, List.countP_append, countP_copyHeadToasts,
      List.countP_eq_length.mpr (mem_failureDetailToasts_isFailureDetail fmt results),
      length_failureDetailToasts]
    omega

/-- Witness for C9: one fulfilled and one rejected target produce the
rejected target's detail toast. -/
theorem copySurveyToasts_reporting_witness :
    (prodMeta, SettledResult.rejected "boom") ∈ copyResultsFixture ∧
      CopyToast.failureDetail prodMeta.projectName prodMeta.environmentType
          (id "boom") ∈ copySurveyToasts id copyResultsFixture :=
  ⟨by decide,
   (copySurveyToasts_reporting id copyResultsFixture).2.2.1 prodMeta "boom"
     (by decide)⟩

/-- Claim C10: `createDefaultTeamMembership` never propagates an error:
on every input it resolves normally, and it creates a team membership
exactly when the default ids are configured, the default team exists,
the user's organization membership exists and the storage create
succeeds; in every failure case it resolves with an error logged and
nothing created. -/
theorem createDefaultTeamMembership_never_throws (env : TeamEnv)
    (userId : String) :
    (∀ e, createDefaultTeamMembership env userId ≠ .error e) ∧
    (∃ logs created, createDefaultTeamMembership env userId = .ok (logs, created) ∧
      (created ≠ [] ↔
        ∃ tid oid team, env.defaultTeamId = some tid ∧
          env.defaultOrganizationId = some oid ∧
          findTeam env tid oid = some team ∧
          (∃ role, env.membershipRole userId team.organizationId = some role) ∧
          env.teamUserCreateFails = false) ∧
      (created = [] → logs ≠ [])) := by
  rcases h1 : env.defaultTeamId with _ | tid
  · refine ⟨by simp [createDefaultTeamMembership, createDefaultTeamMembershipBody, h1],
      [.errorLogged "Default team ID not found"], [], ?_, ?_, by simp⟩
    · simp [createDefaultTeamMembership, createDefaultTeamMembershipBody, h1]
    · simp [h1]
  · rcases h2 : env.defaultOrganizationId with _ | oid
    · refine ⟨by simp [createDefaultTeamMembership, createDefaultTeamMembershipBody, h1, h2],
        [.errorLogged "Default organization ID not found"], [], ?_, ?_, by simp⟩
      · simp [createDefaultTeamMembership, createDefaultTeamMembershipBody, h1, h2]
      · simp [h1, h2]
    · rcases h3 : findTeam env tid oid with _ | team
      · refine ⟨?_, [.errorLogged "Error creating default team membership"], [], ?_, ?_, by simp⟩
        · simp [createDefaultTeamMembership, createDefaultTeamMembershipBody,
            getTeamByTeamIdOrganizationId, h1, h2, h3]
        · simp [createDefaultTeamMembership, createDefaultTeamMembershipBody,
            getTeamByTeamIdOrganizationId, h1, h2, h3]
        · simp only [h1, h2, Option.some.injEq]
          constructor
          · intro hfalse
            exact absurd rfl hfalse
          · rintro ⟨tid', oid', team', htid, hoid, hfind, _, _⟩
            subst htid
            subst hoid
            rw [h3] at hfind
            exact absurd hfind (by simp)
      · have horg : team.organizationId = oid := by
          have := List.find?_some h3
          simp only [Bool.and_eq_true, beq_iff_eq] at this
          exact this.2
        rcases h4 : env.membershipRole userId team.organizationId with _ | role
        · refine ⟨?_, [.errorLogged "Organization membership not found"], [], ?_, ?_, by simp⟩
          · simp [createDefaultTeamMembership, createDefaultTeamMembershipBody,
              getTeamByTeamIdOrganizationId, h1, h2, h3, h4]
          · simp [createDefaultTeamMembership, createDefaultTeamMembershipBody,
              getTeamByTeamIdOrganizationId, h1, h2, h3, h4]
          · simp only [h1, h2, Option.some.injEq]
            constructor
            · intro hfalse
              exact absurd rfl hfalse
            · rintro ⟨tid', oid', team', htid, hoid, hfind, ⟨role', hrole⟩, _⟩
              subst htid
              subst hoid
              rw [h3] at hfind
              rw [Option.some.injEq] at hfind
              subst hfind
              rw [h4] at hrole
              exact absurd hrole (by simp)
        · rcases h5 : env.teamUserCreateFails with _ | _
          · have h3' : findTeam env tid team.organizationId = some team := by
              rw [horg]
              exact h3
            refine ⟨?_, [], [⟨tid, userId, if isOwnerOrManager role then .admin else .contributor⟩], ?_, ?_, ?_⟩
            · simp [createDefaultTeamMembership, createDefaultTeamMembershipBody,
                getTeamByTeamIdOrganizationId, createTeamMembership, h1, h2, h3, h3',
                h4, h5]
            · simp [createDefaultTeamMembership, createDefaultTeamMembershipBody,
                getTeamByTeamIdOrganizationId, createTeamMembership, h1, h2, h3, h3',
                h4, h5]
            · constructor
              · intro _
                exact ⟨tid, oid, team, rfl, rfl, h3, ⟨role, h4⟩, rfl⟩
              · intro _
                simp
            · intro hc
              exact absurd hc (by simp)
          · refine ⟨?_, [.errorLogged "Error creating default team membership"], [], ?_, ?_, by simp⟩
            · simp [createDefaultTeamMembership, createDefaultTeamMembershipBody,
                getTeamByTeamIdOrganizationId, createTeamMembership, h1, h2, h3, h4, h5]
            · simp [createDefaultTeamMembership, createDefaultTeamMembershipBody,
                getTeamByTeamIdOrganizationId, createTeamMembership, h1, h2, h3, h4, h5]
            · simp only [h1, h2, Option.some.injEq]
              constructor
              · intro hfalse
                exact absurd rfl hfalse
              · rintro ⟨tid', oid', team', htid, hoid, hfind, _, hfail⟩
                exact absurd hfail (by simp)

/-- Witness for C10: with every lookup succeeding, a contributor
membership for the default team is created without error. -/
theorem createDefaultTeamMembership_never_throws_witness :
    ∃ logs created, createDefaultTeamMembership okTeamEnv "user-1" =
        .ok (logs, created) ∧
      (created ≠ [] ↔
        ∃ tid oid team, okTeamEnv.defaultTeamId = some tid ∧
          okTeamEnv.defaultOrganizationId = some oid ∧
          findTeam okTeamEnv tid oid = some team ∧
          (∃ role, okTeamEnv.membershipRole "user-1" team.organizationId =
            some role) ∧
          okTeamEnv.teamUserCreateFails = false) ∧
      (created = [] → logs ≠ []) :=
  (createDefaultTeamMembership_never_throws okTeamEnv "user-1").2

end Formbricks
